import Mathlib

/-!
Verification development for the StreamShield censor bot
(`src/obs_sneeze_censor.py`).

The Python program is shallowly embedded: strings are lists of
characters, the OBS WebSocket backend is modelled by an environment
recording whether each call succeeds, and the stateful trigger/revert
sequence of `CensorBot._trigger_censor` is an explicit state-passing
function that returns the final state, the trace of issued calls, and
the exception (if any) that propagates out of the Python `try/finally`.
-/

/-- Strings are modelled as lists of characters. -/
abbrev Str := List Char

/-- ASCII whitespace recognised by Python `str.split()` / `str.strip()`
(space, tab, newline, carriage return, vertical tab, form feed). -/
def isSpace (c : Char) : Bool :=
  c == ' ' || c == '\t' || c == '\n' || c == '\r' || c == '\x0b' || c == '\x0c'

/-- ASCII upper-to-lower case table, the fragment of Python `str.lower()`
relevant to this program (all word-set data is ASCII). -/
def lowTable : List (Char × Char) :=
  [('A', 'a'), ('B', 'b'), ('C', 'c'), ('D', 'd'), ('E', 'e'), ('F', 'f'),
   ('G', 'g'), ('H', 'h'), ('I', 'i'), ('J', 'j'), ('K', 'k'), ('L', 'l'),
   ('M', 'm'), ('N', 'n'), ('O', 'o'), ('P', 'p'), ('Q', 'q'), ('R', 'r'),
   ('S', 's'), ('T', 't'), ('U', 'u'), ('V', 'v'), ('W', 'w'), ('X', 'x'),
   ('Y', 'y'), ('Z', 'z')]

/-- Lowercase one character (ASCII model of Python `str.lower()`). -/
def low (c : Char) : Char :=
  ((lowTable.find? (fun p => p.1 == c)).map Prod.snd).getD c

/-- Lowercase a string, as Python `text.lower()`. -/
def lowerStr (s : Str) : Str := s.map low

/-- Python `str.strip()`: remove leading and trailing whitespace. -/
def pyStrip (s : Str) : Str :=
  ((s.dropWhile (fun c => isSpace c)).reverse.dropWhile (fun c => isSpace c)).reverse

/-- Helper for `pySplit`: walk the string keeping the (reversed) current
token in `acc`, emitting a token at each whitespace run boundary. -/
def splitAux : Str → Str → List Str
  | [], acc => if acc = [] then [] else [acc.reverse]
  | c :: cs, acc =>
    if isSpace c then
      if acc = [] then splitAux cs [] else acc.reverse :: splitAux cs []
    else
      splitAux cs (c :: acc)

/-- Python `str.split()` with no arguments: split on runs of whitespace,
discarding empty tokens. -/
def pySplit (s : Str) : List Str := splitAux s []

/-- The built-in default word set `DEFAULT_SWEAR_WORDS` of the program. -/
def DEFAULT_SWEAR_WORDS : Finset Str :=
  {"fuck".toList, "shit".toList, "bitch".toList, "asshole".toList,
   "bastard".toList, "damn".toList, "crap".toList, "dick".toList,
   "piss".toList, "bollocks".toList, "bugger".toList, "bloody".toList,
   "hell".toList}

/-- The profanity detector of `_recognition_loop`:
`set(text.lower().split()) & swear_words` as a pure function. -/
def detect (text : Str) (ws : Finset Str) : Finset Str :=
  (pySplit (lowerStr text)).toFinset ∩ ws

/-- The optional `--swear-list` file as seen by `_load_swear_words`:
whether the path refers to an existing regular file (`Path.is_file()`),
and the lines of the file when it does. -/
structure SwearFile where
  isFile : Bool
  lines : List Str
deriving DecidableEq

/-- `CensorBot._load_swear_words`: start from the default set; if a swear
list was supplied and is an existing regular file, union in its stripped,
lowercased, non-blank lines; otherwise return the default set unchanged. -/
def loadSwearWords (swearList : Option SwearFile) : Finset Str :=
  match swearList with
  | none => DEFAULT_SWEAR_WORDS
  | some f =>
    if f.isFile then
      DEFAULT_SWEAR_WORDS ∪
        ((f.lines.filter (fun w => pyStrip w ≠ [])).map
          (fun w => lowerStr (pyStrip w))).toFinset
    else DEFAULT_SWEAR_WORDS

/-- `pathlib.Path.suffix` of a file name: the part from the last dot,
provided the dot is neither the first nor the last character. -/
def pySuffix (name : Str) : Str :=
  let r := name.reverse
  let ext := r.takeWhile (fun c => c != '.')
  match r.dropWhile (fun c => c != '.') with
  | [] => []
  | _ :: stemRev => if stemRev = [] ∨ ext = [] then [] else '.' :: ext.reverse

/-- The recognised video extensions of `_pick_cat_video`. -/
def videoExts : List Str :=
  [".mp4".toList, ".mov".toList, ".mkv".toList, ".webm".toList]

/-- File filter of `_pick_cat_video`: `p.suffix.lower() in {...}`. -/
def isVideoFile (name : Str) : Bool :=
  videoExts.contains (lowerStr (pySuffix name))

/-- One backend/controller action of `_trigger_censor`, in the order it is
issued. `muteCall` and `sceneItemCall` and `setSettingsCall` are OBS
WebSocket requests; `pickVideo` is the local asset-directory listing and
`hold` is the `time.sleep` hold. -/
inductive Ev
  | muteCall (mute : Bool)
  | pickVideo
  | setSettingsCall (path : Str)
  | sceneItemCall (enabled : Bool)
  | hold
deriving DecidableEq

/-- An exception propagating through the embedded code: a failing OBS call
(identified by the call that raised), the `SystemExit` raised by
`_pick_cat_video` on an empty asset directory, or an error raised by the
speech decoder inside `_recognition_loop`. -/
inductive Err
  | obsCallFailed (e : Ev)
  | emptyAssetDir
  | recognitionError
deriving DecidableEq

/-- The environment of one trigger: contents of the asset folder, the
index drawn by `random.choice`, and whether each external call succeeds. -/
structure ObsEnv where
  muteOnOk : Bool
  folder : List Str
  choiceIdx : Nat
  setFileOk : Bool
  showOk : Bool
  holdOk : Bool
  hideOk : Bool
  muteOffOk : Bool
deriving DecidableEq

/-- Controller and backend state visible to the embedded code: the
`silence` flag of `CensorBot`, and the mute / overlay-visibility /
media-file state held by OBS. A failing call leaves the state unchanged. -/
structure BotSt where
  silence : Bool
  micMuted : Bool
  overlayEnabled : Bool
  catSourceFile : Option Str
deriving DecidableEq

/-- The Idle starting state: flag clear, mic live, overlay hidden. -/
def idleBot : BotSt :=
  { silence := false, micMuted := false, overlayEnabled := false,
    catSourceFile := none }

/-- The filtered video list built by `_pick_cat_video`. -/
def catVideos (env : ObsEnv) : List Str :=
  env.folder.filter (fun p => isVideoFile p)

/-- The asset `random.choice` selects when the list is non-empty. -/
def chosenPath (env : ObsEnv) : Str :=
  (catVideos env).getD (env.choiceIdx % (catVideos env).length) []

/-- `CensorBot._pick_cat_video`: list videos, raise `SystemExit` (modelled
as `none`) when none exist, else choose one at random. -/
def pickCatVideo (env : ObsEnv) : Option Str :=
  if catVideos env = [] then none else some (chosenPath env)

/-- The `try` block of `_trigger_censor` (after the flag is set): mute the
mic, pick a video, point the media source at it, show the overlay, hold.
Returns the state, the calls issued, and the exception that escapes. -/
def tryCensor (env : ObsEnv) (s : BotSt) : BotSt × List Ev × Option Err :=
  if env.muteOnOk = false then
    (s, [Ev.muteCall true], some (Err.obsCallFailed (Ev.muteCall true)))
  else
    let s1 := { s with micMuted := true }
    match pickCatVideo env with
    | none => (s1, [Ev.muteCall true, Ev.pickVideo], some Err.emptyAssetDir)
    | some path =>
      if env.setFileOk = false then
        (s1, [Ev.muteCall true, Ev.pickVideo, Ev.setSettingsCall path],
          some (Err.obsCallFailed (Ev.setSettingsCall path)))
      else
        let s2 := { s1 with catSourceFile := some path }
        if env.showOk = false then
          (s2,
            [Ev.muteCall true, Ev.pickVideo, Ev.setSettingsCall path,
              Ev.sceneItemCall true],
            some (Err.obsCallFailed (Ev.sceneItemCall true)))
        else
          let s3 := { s2 with overlayEnabled := true }
          if env.holdOk = false then
            (s3,
              [Ev.muteCall true, Ev.pickVideo, Ev.setSettingsCall path,
                Ev.sceneItemCall true, Ev.hold],
              some (Err.obsCallFailed Ev.hold))
          else
            (s3,
              [Ev.muteCall true, Ev.pickVideo, Ev.setSettingsCall path,
                Ev.sceneItemCall true, Ev.hold],
              none)

/-- The `finally` block of `_trigger_censor`: hide the overlay, unmute the
mic, clear the flag. A raising call aborts the rest of the block and the
exception escapes. -/
def finallyCensor (env : ObsEnv) (s : BotSt) : BotSt × List Ev × Option Err :=
  if env.hideOk = false then
    (s, [Ev.sceneItemCall false],
      some (Err.obsCallFailed (Ev.sceneItemCall false)))
  else
    let s1 := { s with overlayEnabled := false }
    if env.muteOffOk = false then
      (s1, [Ev.sceneItemCall false, Ev.muteCall false],
        some (Err.obsCallFailed (Ev.muteCall false)))
    else
      ({ s1 with micMuted := false, silence := false },
        [Ev.sceneItemCall false, Ev.muteCall false], none)

/-- `CensorBot._trigger_censor`: return at once when `silence` is already
set; otherwise set the flag, run the `try` block, then the `finally`
block. Per Python semantics an exception raised inside `finally` replaces
the one from the `try` block. -/
def triggerCensor (env : ObsEnv) (s : BotSt) : BotSt × List Ev × Option Err :=
  if s.silence then (s, [], none)
  else
    let r1 := tryCensor env { s with silence := true }
    let r2 := finallyCensor env r1.1
    (r2.1, r1.2.1 ++ r2.2.1,
      match r2.2.2 with
      | some e => some e
      | none => r1.2.2)

/-- What happens when `_recognition_loop` feeds one frame to the decoder:
no utterance boundary yet, a finalized text, or a decoder-internal error
raised by `AcceptWaveform`. -/
inductive FrameOutcome
  | noBoundary
  | final (text : Str)
  | decodeError
deriving DecidableEq

/-- `CensorBot._recognition_loop` over a list of delivered frames (the
`queue.Empty` timeout branch just re-enters the loop and is elided).
Returns the final state, the trace of trigger actions, the number of
frames whose processing completed, and the exception that terminates the
loop, if any. Only `queue.Empty` is caught in the source, so a decoder
error or an exception escaping `_trigger_censor` ends the loop. -/
def recLoop (env : ObsEnv) (ws : Finset Str) :
    BotSt → List FrameOutcome → BotSt × List Ev × Nat × Option Err
  | s, [] => (s, [], 0, none)
  | s, FrameOutcome.decodeError :: _ => (s, [], 0, some Err.recognitionError)
  | s, FrameOutcome.noBoundary :: fs =>
    let r := recLoop env ws s fs
    (r.1, r.2.1, r.2.2.1 + 1, r.2.2.2)
  | s, FrameOutcome.final raw :: fs =>
    let text := lowerStr raw
    if text = [] then
      let r := recLoop env ws s fs
      (r.1, r.2.1, r.2.2.1 + 1, r.2.2.2)
    else
      let bad := (pySplit text).toFinset ∩ ws
      if bad = ∅ then
        let r := recLoop env ws s fs
        (r.1, r.2.1, r.2.2.1 + 1, r.2.2.2)
      else
        let t := triggerCensor env s
        match t.2.2 with
        | some e => (t.1, t.2.1, 0, some e)
        | none =>
          let r := recLoop env ws t.1 fs
          (r.1, t.2.1 ++ r.2.1, r.2.2.1 + 1, r.2.2.2)

/-- An audio frame; its payload is irrelevant to the queue semantics. -/
abbrev Frame := Nat

/-- Python `queue.Queue`: `maxsize = 0` (the default used at
`CensorBot.__init__`) means the queue is unbounded. -/
structure PyQueue where
  maxsize : Nat
  items : List Frame
deriving DecidableEq

/-- Python `Queue.put` blocks exactly when `0 < maxsize <= qsize()`. -/
def qFull (q : PyQueue) : Bool :=
  decide (0 < q.maxsize) && decide (q.maxsize ≤ q.items.length)

/-- One `put` as issued by `_audio_callback`: append when there is room,
otherwise report that the producer blocks. -/
def qPut (q : PyQueue) (x : Frame) : PyQueue × Bool :=
  if qFull q then (q, true) else ({ q with items := q.items ++ [x] }, false)

/-- The queue constructed in `CensorBot.__init__`: `queue.Queue()`. -/
def audioQueue : PyQueue := { maxsize := 0, items := [] }

/-- Push a whole list of captured frames; the flag reports whether any
push blocked. -/
def pushAll (q : PyQueue) : List Frame → PyQueue × Bool
  | [] => (q, false)
  | x :: xs =>
    let r := qPut q x
    if r.2 then (r.1, true) else pushAll r.1 xs

/-- The externally visible OBS state used to phrase the nesting invariant
of the mute/overlay calls. -/
structure ObsView where
  micMuted : Bool
  overlayEnabled : Bool
deriving DecidableEq

/-- Effect of one successfully issued action on the OBS view. -/
def applyEv (v : ObsView) : Ev → ObsView
  | Ev.muteCall b => { v with micMuted := b }
  | Ev.sceneItemCall b => { v with overlayEnabled := b }
  | Ev.pickVideo => v
  | Ev.setSettingsCall _ => v
  | Ev.hold => v

/-- Replay a call trace over the OBS view. -/
def replayObs (v : ObsView) (t : List Ev) : ObsView := t.foldl applyEv v

/-- The LIFO nesting invariant: in every state reached along the trace
(starting from mic live, overlay hidden), a visible overlay implies a
muted mic. `List.scanl` lists exactly the states after each prefix. -/
def nestedOk (tr : List Ev) : Prop :=
  ∀ v ∈ List.scanl applyEv { micMuted := false, overlayEnabled := false } tr,
    v.overlayEnabled = true → v.micMuted = true

instance (tr : List Ev) : Decidable (nestedOk tr) := by
  unfold nestedOk
  infer_instance

/-- Every pair in the case table relates two non-whitespace characters. -/
lemma lowTable_not_space : ∀ p ∈ lowTable, isSpace p.1 = false ∧ isSpace p.2 = false := by
  decide

/-- Lowercasing never changes whether a character is whitespace. -/
lemma isSpace_low (c : Char) : isSpace (low c) = isSpace c := by
  unfold low
  cases hf : lowTable.find? (fun p => p.1 == c) with
  | none => rfl
  | some p =>
    have hp := List.find?_some hf
    have hmem : p ∈ lowTable := List.mem_of_find?_eq_some hf
    have hns := lowTable_not_space p hmem
    have hc : p.1 = c := by simpa using hp
    show isSpace p.2 = isSpace c
    rw [hns.2, ← hc, hns.1]

/-- Splitting commutes with character-wise lowercasing. -/
lemma splitAux_map (s : Str) : ∀ acc : Str,
    splitAux (s.map low) (acc.map low) = (splitAux s acc).map (List.map low) := by
  induction s with
  | nil =>
    intro acc
    by_cases h : acc = []
    · subst h; simp [splitAux]
    · have h2 : acc.map low ≠ [] := by simpa using h
      simp [splitAux, h, h2]
  | cons c cs ih =>
    intro acc
    by_cases hsp : isSpace c = true
    · have hsp2 : isSpace (low c) = true := by rw [isSpace_low]; exact hsp
      by_cases h : acc = []
      · subst h
        simpa [splitAux, hsp, hsp2] using ih []
      · have h2 : acc.map low ≠ [] := by simpa using h
        simpa [splitAux, hsp, hsp2, h, h2] using ih []
    · have hsp2 : isSpace (low c) = false := by rw [isSpace_low]; simpa using hsp
      have := ih (c :: acc)
      simpa [splitAux, hsp, hsp2] using this

/-- `pySplit` of a lowercased string is the lowercased token list. -/
lemma pySplit_lower (s : Str) : pySplit (lowerStr s) = (pySplit s).map lowerStr :=
  splitAux_map s []

/-- Claim C7: a token is matched by the detector exactly when it belongs
to the word set and occurs, up to case, as a whole whitespace-delimited
token of the text; hence a set word embedded inside a longer word never
matches, and `detect` is a pure function of text and word set. -/
theorem detect_token_iff (text : Str) (ws : Finset Str) (t : Str)
    (hws : ∀ w ∈ ws, lowerStr w = w) :
    t ∈ detect text ws ↔
      t ∈ ws ∧ ∃ tok ∈ pySplit text, lowerStr tok = lowerStr t := by
  unfold detect
  rw [Finset.mem_inter, List.mem_toFinset, pySplit_lower, List.mem_map]
  constructor
  · rintro ⟨⟨tok, htok, rfl⟩, hmem⟩
    exact ⟨hmem, tok, htok, (hws _ hmem).symm⟩
  · rintro ⟨hmem, tok, htok, heq⟩
    exact ⟨⟨tok, htok, heq.trans (hws t hmem)⟩, hmem⟩

/-- Witness for C7 at a concrete text and word set: "hell" is in the set
but only embedded inside "shellfish", so it is not matched, while "DAMN"
is matched case-insensitively as the exact token "damn". -/
theorem detect_token_iff_witness :
    ("hell".toList ∈ detect ("Well shellfish DAMN".toList)
        {"hell".toList, "damn".toList} ↔
      "hell".toList ∈ ({"hell".toList, "damn".toList} : Finset Str) ∧
        ∃ tok ∈ pySplit ("Well shellfish DAMN".toList),
          lowerStr tok = lowerStr ("hell".toList)) :=
  detect_token_iff ("Well shellfish DAMN".toList) {"hell".toList, "damn".toList}
    ("hell".toList) (by decide)

/-- With mute, pick, file-set, show and hold all succeeding, the `try`
block runs to completion with the expected state and call order. -/
lemma tryCensor_success (env : ObsEnv) (h1 : env.muteOnOk = true)
    (h2 : catVideos env ≠ []) (h3 : env.setFileOk = true) (h4 : env.showOk = true)
    (h5 : env.holdOk = true) (s : BotSt) :
    tryCensor env s =
      ({ s with micMuted := true, overlayEnabled := true, catSourceFile := some (chosenPath env) },
        [Ev.muteCall true, Ev.pickVideo, Ev.setSettingsCall (chosenPath env),
          Ev.sceneItemCall true, Ev.hold], none) := by
  unfold tryCensor pickCatVideo
  simp [h1, h2, h3, h4, h5]

/-- With both cleanup calls succeeding, the `finally` block hides the
overlay, unmutes and clears the flag. -/
lemma finallyCensor_ok (env : ObsEnv) (h6 : env.hideOk = true)
    (h7 : env.muteOffOk = true) (s : BotSt) :
    finallyCensor env s =
      ({ s with overlayEnabled := false, micMuted := false, silence := false },
        [Ev.sceneItemCall false, Ev.muteCall false], none) := by
  unfold finallyCensor
  simp [h6, h7]

/-- As long as the hide call succeeds, the `finally` block issues the hide
call and then the unmute call, whether or not the unmute succeeds. -/
lemma finallyCensor_trace_hideOk (env : ObsEnv) (h6 : env.hideOk = true)
    (s : BotSt) :
    (finallyCensor env s).2.1 = [Ev.sceneItemCall false, Ev.muteCall false] := by
  unfold finallyCensor
  cases h7 : env.muteOffOk <;> simp [h6, h7]

/-- Call trace of a fully successful censorship session. -/
lemma trigger_trace_ok (env : ObsEnv) (s : BotSt) (hsil : s.silence = false)
    (h1 : env.muteOnOk = true) (h2 : catVideos env ≠ []) (h3 : env.setFileOk = true)
    (h4 : env.showOk = true) (h5 : env.holdOk = true) (h6 : env.hideOk = true) :
    (triggerCensor env s).2.1 =
      [Ev.muteCall true, Ev.pickVideo, Ev.setSettingsCall (chosenPath env),
        Ev.sceneItemCall true, Ev.hold, Ev.sceneItemCall false, Ev.muteCall false] := by
  unfold triggerCensor
  simp [hsil, tryCensor_success env h1 h2 h3 h4 h5,
    finallyCensor_trace_hideOk env h6]

/-- Claim C1: when the initial mute succeeds and a later step of the
session fails (empty asset directory, file-set, overlay-show or hold),
the `finally` cleanup still runs: both cleanup calls are issued and the
end state has the overlay disabled, the mic unmuted and the controller
Idle (silence flag cleared). -/
theorem trigger_revert (env : ObsEnv) (s : BotSt) (hsil : s.silence = false)
    (hmute : env.muteOnOk = true)
    (hfail : catVideos env = [] ∨ env.setFileOk = false ∨ env.showOk = false ∨
      env.holdOk = false)
    (hhide : env.hideOk = true) (hmoff : env.muteOffOk = true) :
    (triggerCensor env s).1.overlayEnabled = false ∧
    (triggerCensor env s).1.micMuted = false ∧
    (triggerCensor env s).1.silence = false ∧
    Ev.sceneItemCall false ∈ (triggerCensor env s).2.1 ∧
    Ev.muteCall false ∈ (triggerCensor env s).2.1 := by
  unfold triggerCensor
  simp [hsil, finallyCensor_ok env hhide hmoff]

/-- Witness for C1: failure injected at asset selection (empty folder),
after a successful mute; the session ends clean. -/
theorem trigger_revert_witness :
    (triggerCensor (ObsEnv.mk true [] 0 true true true true true) idleBot).1.overlayEnabled = false ∧
    (triggerCensor (ObsEnv.mk true [] 0 true true true true true) idleBot).1.micMuted = false ∧
    (triggerCensor (ObsEnv.mk true [] 0 true true true true true) idleBot).1.silence = false ∧
    Ev.sceneItemCall false ∈ (triggerCensor (ObsEnv.mk true [] 0 true true true true true) idleBot).2.1 ∧
    Ev.muteCall false ∈ (triggerCensor (ObsEnv.mk true [] 0 true true true true true) idleBot).2.1 :=
  trigger_revert (ObsEnv.mk true [] 0 true true true true true) idleBot rfl rfl
    (Or.inl (by decide)) rfl rfl

/-- Claim C2: re-entrance is debounced by the `silence` flag — when the
flag is already set, `_trigger_censor` returns at once with no calls, no
state change and no error; and a fully successful session performs
exactly one asset selection and exactly one mute/unmute pair. -/
theorem single_flight (env : ObsEnv) (s : BotSt) :
    (s.silence = true → triggerCensor env s = (s, [], none)) ∧
    (s.silence = false → env.muteOnOk = true → catVideos env ≠ [] →
      env.setFileOk = true → env.showOk = true → env.holdOk = true →
      env.hideOk = true →
      ((triggerCensor env s).2.1.count Ev.pickVideo = 1 ∧
        (triggerCensor env s).2.1.count (Ev.muteCall true) = 1 ∧
        (triggerCensor env s).2.1.count (Ev.muteCall false) = 1)) := by
  constructor
  · intro h
    unfold triggerCensor
    simp [h]
  · intro hsil h1 h2 h3 h4 h5 h6
    rw [trigger_trace_ok env s hsil h1 h2 h3 h4 h5 h6]
    simp [List.count_cons]

/-- Witness for C2: a second detection arriving while the flag is set
issues nothing, and a successful session has one pick and one mute pair. -/
theorem single_flight_witness :
    (triggerCensor (ObsEnv.mk true ["cat.mp4".toList] 0 true true true true true)
        { idleBot with silence := true } =
      ({ idleBot with silence := true }, [], none)) ∧
    ((triggerCensor (ObsEnv.mk true ["cat.mp4".toList] 0 true true true true true)
        idleBot).2.1.count Ev.pickVideo = 1 ∧
      (triggerCensor (ObsEnv.mk true ["cat.mp4".toList] 0 true true true true true)
        idleBot).2.1.count (Ev.muteCall true) = 1 ∧
      (triggerCensor (ObsEnv.mk true ["cat.mp4".toList] 0 true true true true true)
        idleBot).2.1.count (Ev.muteCall false) = 1) :=
  ⟨(single_flight (ObsEnv.mk true ["cat.mp4".toList] 0 true true true true true)
      { idleBot with silence := true }).1 rfl,
    (single_flight (ObsEnv.mk true ["cat.mp4".toList] 0 true true true true true)
      idleBot).2 rfl rfl (by decide) rfl rfl rfl rfl⟩

/-- Claim C8: in a session that reaches the overlay step, calls nest LIFO:
mute(true) strictly before show, and (after the hold) hide strictly
before unmute; along the whole trace the overlay is never visible while
the mic is unmuted. -/
theorem censor_lifo (env : ObsEnv) (s : BotSt) (hsil : s.silence = false)
    (h1 : env.muteOnOk = true) (h2 : catVideos env ≠ []) (h3 : env.setFileOk = true)
    (h4 : env.showOk = true) (h5 : env.holdOk = true) (h6 : env.hideOk = true)
    (h7 : env.muteOffOk = true) :
    (triggerCensor env s).2.1 =
      [Ev.muteCall true, Ev.pickVideo, Ev.setSettingsCall (chosenPath env),
        Ev.sceneItemCall true, Ev.hold, Ev.sceneItemCall false, Ev.muteCall false] ∧
    List.Sublist
      [Ev.muteCall true, Ev.sceneItemCall true, Ev.sceneItemCall false,
        Ev.muteCall false]
      (triggerCensor env s).2.1 ∧
    nestedOk (triggerCensor env s).2.1 := by
  have htr := trigger_trace_ok env s hsil h1 h2 h3 h4 h5 h6
  refine ⟨htr, ?_, ?_⟩
  · rw [htr]
    apply List.Sublist.cons₂
    apply List.Sublist.cons
    apply List.Sublist.cons
    apply List.Sublist.cons₂
    apply List.Sublist.cons
    apply List.Sublist.cons₂
    apply List.Sublist.cons₂
    exact List.Sublist.slnil
  · rw [htr]
    unfold nestedOk
    intro v hv
    simp only [List.scanl, applyEv] at hv
    fin_cases hv <;> simp

/-- Witness for C8 on a concrete one-video folder. -/
theorem censor_lifo_witness :
    (triggerCensor (ObsEnv.mk true ["cat.mp4".toList] 0 true true true true true)
        idleBot).2.1 =
      [Ev.muteCall true, Ev.pickVideo,
        Ev.setSettingsCall
          (chosenPath (ObsEnv.mk true ["cat.mp4".toList] 0 true true true true true)),
        Ev.sceneItemCall true, Ev.hold, Ev.sceneItemCall false, Ev.muteCall false] ∧
    List.Sublist
      [Ev.muteCall true, Ev.sceneItemCall true, Ev.sceneItemCall false,
        Ev.muteCall false]
      (triggerCensor (ObsEnv.mk true ["cat.mp4".toList] 0 true true true true true)
        idleBot).2.1 ∧
    nestedOk
      (triggerCensor (ObsEnv.mk true ["cat.mp4".toList] 0 true true true true true)
        idleBot).2.1 :=
  censor_lifo (ObsEnv.mk true ["cat.mp4".toList] 0 true true true true true) idleBot
    rfl rfl (by decide) rfl rfl rfl rfl rfl

/-- With the default `maxsize = 0`, `put` never blocks: pushing any list
of frames just appends them all. -/
lemma pushAll_maxsize_zero (fs : List Frame) : ∀ q : PyQueue, q.maxsize = 0 →
    pushAll q fs = ({ q with items := q.items ++ fs }, false) := by
  induction fs with
  | nil => intro q h; simp [pushAll]
  | cons x xs ih =>
    intro q h
    have hfull : qFull q = false := by simp [qFull, h]
    simp [pushAll, qPut, hfull, ih { q with items := q.items ++ [x] } h]

/-- Counterexample to C3: the frame queue built in `CensorBot.__init__` is
`queue.Queue()` with the default `maxsize = 0`, so no capacity bounds its
length — for every candidate bound there is a push sequence exceeding it. -/
theorem frame_queue_bounded_cex :
    ¬ ∃ c : Nat, 0 < c ∧ ∀ fs : List Frame,
      (pushAll audioQueue fs).1.items.length ≤ c := by
  rintro ⟨c, hc, h⟩
  have hlen := h (List.replicate (c + 1) 0)
  rw [pushAll_maxsize_zero (List.replicate (c + 1) 0) audioQueue rfl] at hlen
  simp [audioQueue] at hlen

/-- Claim C3 amended: the frame queue is unbounded — the capture-side
`put` never blocks and the queue length equals the number of frames
pushed, growing without bound under sustained input. -/
theorem frame_queue_unbounded (fs : List Frame) :
    (pushAll audioQueue fs).1.items.length = fs.length ∧
    (pushAll audioQueue fs).2 = false := by
  rw [pushAll_maxsize_zero fs audioQueue rfl]
  simp [audioQueue]

/-- After a successful mute, an empty (or video-free) asset directory
makes `_pick_cat_video` raise out of the `try` block. -/
lemma tryCensor_empty (env : ObsEnv) (h1 : env.muteOnOk = true)
    (h2 : catVideos env = []) (s : BotSt) :
    tryCensor env s =
      ({ s with micMuted := true }, [Ev.muteCall true, Ev.pickVideo],
        some Err.emptyAssetDir) := by
  unfold tryCensor pickCatVideo
  simp [h1, h2]

/-- Counterexample to C4: with no video file in the asset folder, the
cleanup block still issues `set_scene_item_enabled(..., False)` (the
claim says `set_scene_item_enabled` is never called), and the
`SystemExit` propagates out of `_trigger_censor`, terminating the
recognition loop instead of letting it continue: the second profane
frame is never processed. -/
theorem empty_assets_cex :
    Ev.sceneItemCall false ∈
      (triggerCensor (ObsEnv.mk true ["notes.txt".toList] 0 true true true true true)
        idleBot).2.1 ∧
    recLoop (ObsEnv.mk true ["notes.txt".toList] 0 true true true true true)
        {"damn".toList} idleBot
        [FrameOutcome.final ("damn".toList), FrameOutcome.final ("damn".toList)] =
      (idleBot,
        [Ev.muteCall true, Ev.pickVideo, Ev.sceneItemCall false, Ev.muteCall false],
        0, some Err.emptyAssetDir) := by
  decide

/-- Claim C4 amended: with no recognized video file at trigger time,
mute(true) is called, the empty-directory `SystemExit` is raised, the
cleanup still runs — `set_scene_item_enabled(False)` and then
mute(false) are called, the overlay is never shown
(`set_scene_item_enabled(True)` never called) and the end state is
unmuted and Idle — but the `SystemExit` propagates out of
`_trigger_censor`, terminating the recognition loop. -/
theorem empty_assets_behaviour (env : ObsEnv) (s : BotSt) (ws : Finset Str)
    (raw : Str) (rest : List FrameOutcome)
    (hsil : s.silence = false) (hmute : env.muteOnOk = true)
    (hvids : catVideos env = []) (hhide : env.hideOk = true)
    (hmoff : env.muteOffOk = true) (htext : lowerStr raw ≠ [])
    (hbad : (pySplit (lowerStr raw)).toFinset ∩ ws ≠ ∅) :
    (triggerCensor env s).2.1 =
      [Ev.muteCall true, Ev.pickVideo, Ev.sceneItemCall false, Ev.muteCall false] ∧
    (triggerCensor env s).2.2 = some Err.emptyAssetDir ∧
    Ev.sceneItemCall true ∉ (triggerCensor env s).2.1 ∧
    (triggerCensor env s).1.micMuted = false ∧
    (triggerCensor env s).1.silence = false ∧
    recLoop env ws s (FrameOutcome.final raw :: rest) =
      ((triggerCensor env s).1, (triggerCensor env s).2.1, 0,
        some Err.emptyAssetDir) := by
  have htc : triggerCensor env s =
      ({ s with silence := false, micMuted := false, overlayEnabled := false },
        [Ev.muteCall true, Ev.pickVideo, Ev.sceneItemCall false, Ev.muteCall false],
        some Err.emptyAssetDir) := by
    unfold triggerCensor
    simp [hsil, tryCensor_empty env hmute hvids, finallyCensor_ok env hhide hmoff]
  refine ⟨by rw [htc], by rw [htc], by rw [htc]; simp, by rw [htc], by rw [htc], ?_⟩
  simp [recLoop, htext, hbad, htc]

/-- Witness for C4 (amended) at a concrete video-free folder. -/
theorem empty_assets_behaviour_witness :
    (triggerCensor (ObsEnv.mk true ["notes.txt".toList] 1 true true true true true)
        idleBot).2.1 =
      [Ev.muteCall true, Ev.pickVideo, Ev.sceneItemCall false, Ev.muteCall false] ∧
    (triggerCensor (ObsEnv.mk true ["notes.txt".toList] 1 true true true true true)
        idleBot).2.2 = some Err.emptyAssetDir ∧
    Ev.sceneItemCall true ∉
      (triggerCensor (ObsEnv.mk true ["notes.txt".toList] 1 true true true true true)
        idleBot).2.1 ∧
    (triggerCensor (ObsEnv.mk true ["notes.txt".toList] 1 true true true true true)
        idleBot).1.micMuted = false ∧
    (triggerCensor (ObsEnv.mk true ["notes.txt".toList] 1 true true true true true)
        idleBot).1.silence = false ∧
    recLoop (ObsEnv.mk true ["notes.txt".toList] 1 true true true true true)
        {"crap".toList} idleBot [FrameOutcome.final ("Oh CRAP".toList)] =
      ((triggerCensor (ObsEnv.mk true ["notes.txt".toList] 1 true true true true true)
          idleBot).1,
        (triggerCensor (ObsEnv.mk true ["notes.txt".toList] 1 true true true true true)
          idleBot).2.1,
        0, some Err.emptyAssetDir) :=
  empty_assets_behaviour (ObsEnv.mk true ["notes.txt".toList] 1 true true true true true)
    idleBot {"crap".toList} ("Oh CRAP".toList) [] rfl rfl (by decide) rfl rfl
    (by decide) (by decide)

/-- Counterexample to C5: when the initial mute call itself fails, the
code has already set the `silence` flag and the `finally` block still
issues both cleanup calls — the claim says no cleanup calls are issued. -/
theorem mute_fail_cex :
    (triggerCensor (ObsEnv.mk false ["cat.mp4".toList] 0 true true true true true)
        idleBot).2.1 =
      [Ev.muteCall true, Ev.sceneItemCall false, Ev.muteCall false] := by
  decide

/-- Claim C5 amended: if the initial mute call fails, the `silence` flag
has already been set, so the controller does enter Triggering; the
`finally` block still issues the hide-overlay and unmute calls and
clears the flag, and the mute error then propagates out of
`_trigger_censor` (nothing logs the detection as dropped). -/
theorem mute_fail_behaviour (env : ObsEnv) (s : BotSt) (hsil : s.silence = false)
    (hmute : env.muteOnOk = false) (hhide : env.hideOk = true)
    (hmoff : env.muteOffOk = true) :
    (triggerCensor env s).2.1 =
      [Ev.muteCall true, Ev.sceneItemCall false, Ev.muteCall false] ∧
    (triggerCensor env s).2.2 = some (Err.obsCallFailed (Ev.muteCall true)) ∧
    (triggerCensor env s).1.silence = false ∧
    (triggerCensor env s).1.micMuted = false := by
  unfold triggerCensor tryCensor
  simp [hsil, hmute, finallyCensor_ok env hhide hmoff]

/-- Witness for C5 (amended) at a concrete failing backend. -/
theorem mute_fail_behaviour_witness :
    (triggerCensor (ObsEnv.mk false ["cat.mp4".toList] 2 true true true true true)
        idleBot).2.1 =
      [Ev.muteCall true, Ev.sceneItemCall false, Ev.muteCall false] ∧
    (triggerCensor (ObsEnv.mk false ["cat.mp4".toList] 2 true true true true true)
        idleBot).2.2 = some (Err.obsCallFailed (Ev.muteCall true)) ∧
    (triggerCensor (ObsEnv.mk false ["cat.mp4".toList] 2 true true true true true)
        idleBot).1.silence = false ∧
    (triggerCensor (ObsEnv.mk false ["cat.mp4".toList] 2 true true true true true)
        idleBot).1.micMuted = false :=
  mute_fail_behaviour (ObsEnv.mk false ["cat.mp4".toList] 2 true true true true true)
    idleBot rfl rfl rfl rfl

/-- Counterexample to C6: a failing hide call during cleanup is not
caught anywhere — the error escapes `_trigger_censor` (so nothing logs
it), the unmute call is never issued, the `silence` flag stays set, and
the recognition loop terminates. -/
theorem cleanup_fail_cex :
    (triggerCensor (ObsEnv.mk true ["cat.mp4".toList] 0 true true true false true)
        idleBot).2.2 = some (Err.obsCallFailed (Ev.sceneItemCall false)) ∧
    Ev.muteCall false ∉
      (triggerCensor (ObsEnv.mk true ["cat.mp4".toList] 0 true true true false true)
        idleBot).2.1 ∧
    (triggerCensor (ObsEnv.mk true ["cat.mp4".toList] 0 true true true false true)
        idleBot).1.silence = true ∧
    (recLoop (ObsEnv.mk true ["cat.mp4".toList] 0 true true true false true)
        {"damn".toList} idleBot
        [FrameOutcome.final ("damn".toList), FrameOutcome.final ("damn".toList)]).2.2.2 =
      some (Err.obsCallFailed (Ev.sceneItemCall false)) := by
  decide

/-- Claim C6 amended: a cleanup-call failure is not caught or logged —
the exception propagates out of `_trigger_censor` (terminating the
recognition loop). A failing hide call skips the unmute and leaves the
flag set with the mic muted and the overlay visible; a failing unmute
call leaves the flag set and the mic muted. -/
theorem cleanup_fail_behaviour (env : ObsEnv) (s : BotSt) (hsil : s.silence = false)
    (h1 : env.muteOnOk = true) (h2 : catVideos env ≠ []) (h3 : env.setFileOk = true)
    (h4 : env.showOk = true) (h5 : env.holdOk = true) :
    (env.hideOk = false →
      ((triggerCensor env s).2.2 = some (Err.obsCallFailed (Ev.sceneItemCall false)) ∧
        Ev.muteCall false ∉ (triggerCensor env s).2.1 ∧
        (triggerCensor env s).1.silence = true ∧
        (triggerCensor env s).1.micMuted = true ∧
        (triggerCensor env s).1.overlayEnabled = true)) ∧
    (env.hideOk = true → env.muteOffOk = false →
      ((triggerCensor env s).2.2 = some (Err.obsCallFailed (Ev.muteCall false)) ∧
        (triggerCensor env s).1.silence = true ∧
        (triggerCensor env s).1.micMuted = true)) := by
  constructor
  · intro h6
    unfold triggerCensor finallyCensor
    simp [hsil, tryCensor_success env h1 h2 h3 h4 h5, h6]
  · intro h6 h7
    unfold triggerCensor finallyCensor
    simp [hsil, tryCensor_success env h1 h2 h3 h4 h5, h6, h7]

/-- Witness for C6 (amended): a failing hide call and a failing unmute
call, each on a concrete backend. -/
theorem cleanup_fail_behaviour_witness :
    ((triggerCensor (ObsEnv.mk true ["cat.mp4".toList] 0 true true true false true)
        idleBot).2.2 = some (Err.obsCallFailed (Ev.sceneItemCall false)) ∧
      Ev.muteCall false ∉
        (triggerCensor (ObsEnv.mk true ["cat.mp4".toList] 0 true true true false true)
          idleBot).2.1 ∧
      (triggerCensor (ObsEnv.mk true ["cat.mp4".toList] 0 true true true false true)
        idleBot).1.silence = true ∧
      (triggerCensor (ObsEnv.mk true ["cat.mp4".toList] 0 true true true false true)
        idleBot).1.micMuted = true ∧
      (triggerCensor (ObsEnv.mk true ["cat.mp4".toList] 0 true true true false true)
        idleBot).1.overlayEnabled = true) ∧
    ((triggerCensor (ObsEnv.mk true ["cat.mp4".toList] 0 true true true true false)
        idleBot).2.2 = some (Err.obsCallFailed (Ev.muteCall false)) ∧
      (triggerCensor (ObsEnv.mk true ["cat.mp4".toList] 0 true true true true false)
        idleBot).1.silence = true ∧
      (triggerCensor (ObsEnv.mk true ["cat.mp4".toList] 0 true true true true false)
        idleBot).1.micMuted = true) :=
  ⟨(cleanup_fail_behaviour (ObsEnv.mk true ["cat.mp4".toList] 0 true true true false true)
      idleBot rfl rfl (by decide) rfl rfl rfl).1 rfl,
    (cleanup_fail_behaviour (ObsEnv.mk true ["cat.mp4".toList] 0 true true true true false)
      idleBot rfl rfl (by decide) rfl rfl rfl).2 rfl rfl⟩

/-- Counterexample to C9: a decoder error on the first frame terminates
the recognition loop with the error — the following profane frame is
never processed, so the loop does not continue past a decode failure. -/
theorem decode_error_cex :
    recLoop (ObsEnv.mk true ["cat.mp4".toList] 0 true true true true true)
        {"damn".toList} idleBot
        [FrameOutcome.decodeError, FrameOutcome.final ("damn".toList)] =
      (idleBot, [], 0, some Err.recognitionError) := by
  decide

/-- Claim C9 amended: only `queue.Empty` is caught in
`_recognition_loop`, so a decoder-internal error raised by
`AcceptWaveform` propagates: the loop terminates immediately, processing
no frame of the remainder and issuing no backend call. -/
theorem decode_error_terminates_loop (env : ObsEnv) (ws : Finset Str) (s : BotSt)
    (fs : List FrameOutcome) :
    recLoop env ws s (FrameOutcome.decodeError :: fs) =
      (s, [], 0, some Err.recognitionError) := rfl

/-- Claim C10: when the optional swear-list path is supplied but does not
refer to an existing regular file, `_load_swear_words` silently ignores
it and returns exactly the built-in default set. -/
theorem swear_list_missing_file (f : SwearFile) (h : f.isFile = false) :
    loadSwearWords (some f) = DEFAULT_SWEAR_WORDS := by
  unfold loadSwearWords
  simp [h]

/-- Witness for C10: a supplied non-file path whose (hypothetical)
content would otherwise have extended the set is ignored. -/
theorem swear_list_missing_file_witness :
    loadSwearWords (some (SwearFile.mk false ["zork".toList])) = DEFAULT_SWEAR_WORDS :=
  swear_list_missing_file (SwearFile.mk false ["zork".toList]) rfl
